import Mathlib

/-!
Verification of the ObservePoint broken-external-links workflow
(johndavis92790/op-appscripts).

The pure core of the pipeline is embedded shallowly from the source:
tabular report data is a headers/rows structure, column lookup and the
dedup/join/filter functions are translated directly from
src/WebhookHandler.js, the report-provisioning short-circuits from the
report-creation module, and the effectful HTTP/sheet operations are
modelled by explicit oracles (one response per remote call) and an
explicit sheet state.
-/

/-- A tabular report: ordered column identifiers plus rows of cell values.
Mirrors the grid data objects built by fetchGridReportData. -/
structure GridData where
  headers : List String
  rows : List (List String)
deriving DecidableEq, Repr

/-- Helper for findColumnIndex: scans the header list carrying the current
position, returning the position of the first match or -1. -/
def findColumnIndexAux : List String → String → Nat → Int
  | [], _, _ => -1
  | h :: t, columnId, i => if h = columnId then (i : Int) else findColumnIndexAux t columnId (i + 1)

/-- findColumnIndex from src/WebhookHandler.js: first index of the column id
in the header list, or -1 when absent. -/
def findColumnIndex (headers : List String) (columnId : String) : Int :=
  findColumnIndexAux headers columnId 0

/-- JavaScript indexing row with a possibly negative or out-of-range index:
undefined cells are identified with the empty string (both are falsy in the
source and both render as the empty cell). -/
def cellAtI (row : List String) (i : Int) : String :=
  if i < 0 then "" else row.getD i.toNat ""

/-- Helper for extractUniqueUrls: walks the rows carrying the set of values
seen so far; a cell is pushed when it is truthy (non-empty) and unseen.
Mirrors the seen/unique pair of the source loop. -/
def extractUniqueUrlsAux : List (List String) → Int → List String → List String
  | [], _, _ => []
  | row :: rest, columnIndex, seen =>
    let url := cellAtI row columnIndex
    if url ≠ "" ∧ url ∉ seen then
      url :: extractUniqueUrlsAux rest columnIndex (url :: seen)
    else
      extractUniqueUrlsAux rest columnIndex seen

/-- extractUniqueUrls from src/WebhookHandler.js: ordered first-occurrence
deduplication of one column, skipping falsy (empty) cells. -/
def extractUniqueUrls (rows : List (List String)) (columnIndex : Int) : List String :=
  extractUniqueUrlsAux rows columnIndex []

/-- Specification-level deduplication keeping the first occurrence of each
value, in order. Used to state what extractUniqueUrls computes. -/
def dedupFirst : List String → List String
  | [] => []
  | x :: xs => x :: dedupFirst (xs.filter (fun y => decide (y ≠ x)))
termination_by l => l.length
decreasing_by
  simp only [List.length_cons]
  exact Nat.lt_succ_of_le (List.length_filter_le _ _)

/-- Numeric value of the leading decimal-digit run of a character list,
none when there is no leading digit. -/
def leadingNat (cs : List Char) : Option Nat :=
  let ds := cs.takeWhile Char.isDigit
  if ds.isEmpty then none
  else some (ds.foldl (fun acc c => acc * 10 + (c.toNat - '0'.toNat)) 0)

/-- JavaScript parseInt on a cell value: skip leading whitespace, then an
optional sign and the leading decimal digits; NaN (no digits) is modelled
as none. -/
def parseIntJS (s : String) : Option Int :=
  match s.data.dropWhile Char.isWhitespace with
  | '-' :: rest => (leadingNat rest).map (fun n => -(n : Int))
  | '+' :: rest => (leadingNat rest).map (fun n => (n : Int))
  | rest => (leadingNat rest).map (fun n => (n : Int))

/-- The cascade of candidate status-code column ids tried by
filterBrokenLinks, in source order. -/
def statusCodeIndexOf (headers : List String) : Int :=
  let i1 := findColumnIndex headers "STATUS_CODE"
  if i1 ≠ -1 then i1 else
  let i2 := findColumnIndex headers "DESTINATION_FINAL_PAGE_STATUS_CODE"
  if i2 ≠ -1 then i2 else
  let i3 := findColumnIndex headers "HTTP_STATUS_CODE"
  if i3 ≠ -1 then i3 else
  findColumnIndex headers "RESPONSE_CODE"

/-- filterBrokenLinks from src/WebhookHandler.js: when a status-code column
is found, keep rows whose parsed status is at least 400 and is neither 403
nor 429; when no status column resolves, return the rows unfiltered. -/
def filterBrokenLinks (gridData : GridData) : List (List String) :=
  let idx := statusCodeIndexOf gridData.headers
  if idx = -1 then gridData.rows
  else gridData.rows.filter (fun row =>
    match parseIntJS (cellAtI row idx) with
    | some status => decide (status ≥ 400) && decide (status ≠ 403) && decide (status ≠ 429)
    | none => false)

/-- One filter condition of a saved-report query definition, as built by the
report-creation module. -/
structure FilterCondition where
  negated : Bool
  operator : String
  filteredColumnId : String
  args : List Int
deriving DecidableEq, Repr

/-- The filter conditions of the broken-links (secondary) saved report built
by createOrGetSecondaryReport, parametrised by the secondary audit id. -/
def secondaryReportConditions (secondaryAuditId : Int) : List FilterCondition :=
  [⟨false, "integer_in", "IS_MOST_RECENT_RUN", [1]⟩,
   ⟨false, "integer_in", "AUDIT_ID", [secondaryAuditId]⟩,
   ⟨false, "integer_in", "FINAL_PAGE_STATUS_CODE_TYPE", [3]⟩,
   ⟨true, "integer_in", "FINAL_PAGE_STATUS_CODE", [403, 429]⟩]

/-- The fixed output header row of joinReports. -/
def joinedHeaders : List String :=
  ["Source Page URL",
   "External Link URL",
   "External Link Text",
   "External Link HTML",
   "External Link Destination URL",
   "External Link Status Code"]

/-- The primaryMap-building loop of joinReports: each primary row with a
truthy LINK_URL cell is assigned into the map, overwriting any earlier row
with the same key. The map is modelled as a lookup function. -/
def insertRows (linkIdx : Int) : List (List String) → (String → Option (List String)) → (String → Option (List String))
  | [], m => m
  | row :: rest, m =>
    let linkUrl := cellAtI row linkIdx
    insertRows linkIdx rest
      (if linkUrl = "" then m else fun k => if k = linkUrl then some row else m k)

/-- The primaryMap of joinReports, built from an empty object. -/
def buildPrimaryMap (rows : List (List String)) (linkIdx : Int) : String → Option (List String) :=
  insertRows linkIdx rows (fun _ => none)

/-- The six-column output row pushed by joinReports for a matched pair,
with the guard that a missing column yields the empty cell. -/
def projectJoined (pSrc pLink pText pHtml sFinal sStatus : Int)
    (primaryRow brokenRow : List String) : List String :=
  [if pSrc ≥ 0 then cellAtI primaryRow pSrc else "",
   if pLink ≥ 0 then cellAtI primaryRow pLink else "",
   if pText ≥ 0 then cellAtI primaryRow pText else "",
   if pHtml ≥ 0 then cellAtI primaryRow pHtml else "",
   if sFinal ≥ 0 then cellAtI brokenRow sFinal else "",
   if sStatus ≥ 0 then cellAtI brokenRow sStatus else ""]

/-- joinReports from src/WebhookHandler.js: build a LINK_URL-keyed map of
the primary rows, then emit one projected row per broken-links row whose
INITIAL_PAGE_URL cell hits the map; unmatched broken rows are dropped. -/
def joinReports (primaryData brokenData : GridData) : GridData :=
  let pLink := findColumnIndex primaryData.headers "LINK_URL"
  let pSrc := findColumnIndex primaryData.headers "FINAL_PAGE_URL"
  let pText := findColumnIndex primaryData.headers "LINK_TEXT"
  let pHtml := findColumnIndex primaryData.headers "LINK_OUTER_HTML"
  let sInit := findColumnIndex brokenData.headers "INITIAL_PAGE_URL"
  let sFinal := findColumnIndex brokenData.headers "FINAL_PAGE_URL"
  let sStatus := findColumnIndex brokenData.headers "FINAL_PAGE_STATUS_CODE"
  let primaryMap := buildPrimaryMap primaryData.rows pLink
  { headers := joinedHeaders,
    rows := brokenData.rows.filterMap (fun brokenRow =>
      (primaryMap (cellAtI brokenRow sInit)).map (fun primaryRow =>
        projectJoined pSrc pLink pText pHtml sFinal sStatus primaryRow brokenRow)) }

/-- Specification-level lookup: the last row of the list whose key cell
equals the given truthy key, none otherwise. Used to state the
last-wins behaviour of the primaryMap. -/
def lastWithKey (idx : Int) (k : String) : List (List String) → Option (List String)
  | [] => none
  | row :: rest =>
    match lastWithKey idx k rest with
    | some r => some r
    | none => if cellAtI row idx = k ∧ k ≠ "" then some row else none

/-- One remote response of the paginated grid-data endpoint: HTTP status,
the column ids of the response metadata, the rows of the page, and the
total page count reported by the pagination metadata. -/
structure PageResponse where
  code : Nat
  headers : List String
  rows : List (List String)
  totalPages : Nat
deriving DecidableEq, Repr

/-- fetchGridReportData from src/WebhookHandler.js over a page oracle:
page 0 fails the whole call on a status of 300 or more; its headers and
rows seed the result, and the loop then appends pages 1 up to the reported
total page count, capped at page index 10, keeping only pages that answer
with status exactly 200. -/
def fetchGridReportData (pages : Nat → PageResponse) : Except String GridData :=
  let r0 := pages 0
  if r0.code ≥ 300 then .error "Grid data fetch failed"
  else
    let upper := min r0.totalPages 10
    let extra := (List.range' 1 (upper - 1)).flatMap
      (fun page => if (pages page).code = 200 then (pages page).rows else [])
    .ok { headers := r0.headers, rows := r0.rows ++ extra }

/-- The empty grid report returned by the retry loop after exhausting all
attempts. -/
def emptyGrid : GridData := { headers := [], rows := [] }

/-- The retry loop of fetchGridReportDataWithRetry: the first component of
the result is the report returned, the second is the number of fetch
attempts actually made (instrumentation of the loop counter; the sleep
between attempts is not modelled). The oracle gives the report returned by
each successive fetch. -/
def retryAux (fetchAttempt : Nat → GridData) : Nat → Nat → GridData × Nat
  | 0, made => (emptyGrid, made)
  | remaining + 1, made =>
    let d := fetchAttempt made
    if d.rows.length > 0 then (d, made + 1)
    else retryAux fetchAttempt remaining (made + 1)

/-- fetchGridReportDataWithRetry from src/WebhookHandler.js: up to
maxRetries fetches, returning the first non-empty report, or the empty
report after the last attempt. -/
def fetchGridReportDataWithRetry (fetchAttempt : Nat → GridData) (maxRetries : Nat) : GridData × Nat :=
  retryAux fetchAttempt maxRetries 0

/-- The sheet state touched by the two stage handlers. -/
structure Sheets where
  primaryReport : GridData
  uniqueUrls : List String
  brokenReport : GridData
  finalReport : GridData
deriving DecidableEq, Repr

/-- processPrimaryReportData from src/WebhookHandler.js: fetch the primary
report with 10 retries, fail when it is still empty, persist it, locate the
LINK_URL column (fail when absent), extract the unique URLs and persist
them. -/
def processPrimaryReportData (fetchAttempt : Nat → GridData) (sheets : Sheets) :
    Except String (Sheets × List String) :=
  let reportData := (fetchGridReportDataWithRetry fetchAttempt 10).1
  if reportData.rows.length = 0 then .error "Primary report has no data after waiting"
  else
    let sheets1 := { sheets with primaryReport := reportData }
    let linkUrlColumnIndex := findColumnIndex reportData.headers "LINK_URL"
    if linkUrlColumnIndex = -1 then .error "LINK_URL column not found in report"
    else
      let uniqueUrls := extractUniqueUrls reportData.rows linkUrlColumnIndex
      .ok ({ sheets1 with uniqueUrls := uniqueUrls }, uniqueUrls)

/-- handleSecondaryAuditComplete from src/WebhookHandler.js: fetch the
broken-links report with 10 retries, persist it whether or not it is empty
(an empty result only logs a warning), join it against the persisted
primary report and persist the joined result. -/
def handleSecondaryAuditComplete (fetchAttempt : Nat → GridData) (sheets : Sheets) :
    Except String Sheets :=
  let brokenData := (fetchGridReportDataWithRetry fetchAttempt 10).1
  let sheets1 := { sheets with brokenReport := brokenData }
  let primaryData := sheets1.primaryReport
  let joinedData := joinReports primaryData brokenData
  .ok { sheets1 with finalReport := joinedData }

/-- A remote audit object as parsed from the GET response: the two fields
the pipeline assigns, plus every other JSON field of the object kept
verbatim as key-value pairs. The rest list in particular carries the
remote-assigned read-only fields (creation timestamps, run history,
computed flags). -/
structure Audit where
  startingUrls : List String
  limit : Nat
  rest : List (String × String)
deriving DecidableEq, Repr

/-- updateAndRunSecondaryAudit from src/WebhookHandler.js over response
oracles: GET the audit (fail on status 300 or more), assign startingUrls
and limit on the parsed object, PUT the whole mutated object back (fail on
status 300 or more), then POST a run (fail on status 300 or more). The
success value is the PUT payload paired with the run id. -/
def updateAndRunSecondaryAudit (urls : List String) (fetchCode : Nat) (fetchedAudit : Audit)
    (updateCode runCode : Nat) (runId : String) : Except String (Audit × String) :=
  if fetchCode ≥ 300 then .error "Audit fetch failed"
  else
    let audit := { fetchedAudit with startingUrls := urls, limit := urls.length }
    if updateCode ≥ 300 then .error "Audit update failed"
    else if runCode ≥ 300 then .error "Audit run failed"
    else .ok (audit, runId)

/-- The id/created pair returned by the create-or-get provisioning
routines. -/
structure EnsureOutcome where
  id : String
  created : Bool
deriving DecidableEq, Repr

/-- createOrGetPrimaryReport from the report-creation module: when a report
id is already configured (truthy), return it with created=false; otherwise
issue the remote creation call (fail on status 300 or more) and return the
new id with created=true. The final component counts the remote creation
calls issued. -/
def createOrGetPrimaryReport (configuredId : String) (createCode : Nat) (newId : String) :
    Except String (EnsureOutcome × Nat) :=
  if configuredId ≠ "" then .ok (⟨configuredId, false⟩, 0)
  else if createCode ≥ 300 then .error "Failed to create primary report"
  else .ok (⟨newId, true⟩, 1)

/-- createOrGetSecondaryReport from the report-creation module, same
short-circuit shape as the primary one (the audit-details GET it performs
before creating is not a creation call and is not counted). -/
def createOrGetSecondaryReport (configuredId : String) (createCode : Nat) (newId : String) :
    Except String (EnsureOutcome × Nat) :=
  if configuredId ≠ "" then .ok (⟨configuredId, false⟩, 0)
  else if createCode ≥ 300 then .error "Failed to create secondary report"
  else .ok (⟨newId, true⟩, 1)

/-- createOrGetSecondaryAudit from the report-creation module, same
short-circuit shape on SECONDARY_AUDIT_ID. -/
def createOrGetSecondaryAudit (configuredId : String) (createCode : Nat) (newId : String) :
    Except String (EnsureOutcome × Nat) :=
  if configuredId ≠ "" then .ok (⟨configuredId, false⟩, 0)
  else if createCode ≥ 300 then .error "Failed to create secondary audit"
  else .ok (⟨newId, true⟩, 1)

/-- JavaScript toLowerCase on the characters of a string. -/
def toLowerJS (s : String) : String := String.mk (s.data.map Char.toLower)

/-- doPostHandler from src/WebhookHandler.js: the stage parameter is read
with an empty default and lowercased; an empty stage returns the missing
parameter text before the try block, the two known stages run their handler
inside the try block (an exception becomes an error-text body), and any
other stage throws inside the try block. The two handler runs are modelled
by their outcomes. -/
def doPostHandler (stageParam : String) (primaryOutcome secondaryOutcome : Except String Unit) : String :=
  let stage := toLowerJS stageParam
  if stage = "" then "Missing stage parameter"
  else if stage = "primary" then
    match primaryOutcome with
    | .ok _ => "OK"
    | .error m => "Error: " ++ m
  else if stage = "secondary" then
    match secondaryOutcome with
    | .ok _ => "OK"
    | .error m => "Error: " ++ m
  else "Error: " ++ ("Unknown stage: " ++ stage)

/-- Concrete page oracle exhibiting the pagination cap: every page answers
with status 200, one row, and a reported total page count of 11. -/
def cexPages : Nat → PageResponse := fun _ => ⟨200, ["A"], [["r"]], 11⟩

/-- Concrete audit carrying remote-assigned read-only fields. -/
def cexAudit : Audit :=
  ⟨["https://old-a.example", "https://old-b.example"], 2,
   [("created", "2024-01-01"), ("lastRunStatus", "completed")]⟩

/-- Sheets state with every sheet empty. -/
def emptySheets : Sheets := ⟨emptyGrid, [], emptyGrid, emptyGrid⟩

/-- Primary report used to exercise the join theorems on concrete data. -/
def cex5p : GridData := ⟨["LINK_URL", "FINAL_PAGE_URL"], [["u1", "pa"]]⟩

/-- Broken-links report used to exercise the join theorems on concrete
data: the second row's key has no match in cex5p. -/
def cex5b : GridData :=
  ⟨["INITIAL_PAGE_URL", "FINAL_PAGE_URL", "FINAL_PAGE_STATUS_CODE"],
   [["u1", "d1", "404"], ["u2", "d2", "500"]]⟩

lemma retryAux_all_empty (fetchAttempt : Nat → GridData) (h : ∀ n, (fetchAttempt n).rows = []) :
    ∀ (remaining made : Nat), retryAux fetchAttempt remaining made = (emptyGrid, made + remaining) := by
  intro remaining
  induction remaining with
  | zero => intro made; simp [retryAux]
  | succ r ih =>
    intro made
    rw [retryAux]
    rw [if_neg (by simp [h made])]
    rw [ih (made + 1)]
    have e : made + 1 + r = made + (r + 1) := by omega
    rw [e]

/-- C1: with maxRetries attempts and a fetch that always answers zero rows,
the retry engine makes exactly maxRetries fetch attempts and returns the
empty report instead of failing; the primary-stage handler then raises a
fatal error on that empty result while the secondary-stage handler accepts
it and completes successfully. -/
theorem retry_empty_exhausts_attempts (fetchAttempt : Nat → GridData) (maxRetries : Nat)
    (sheets : Sheets) (h : ∀ n, (fetchAttempt n).rows = []) :
    fetchGridReportDataWithRetry fetchAttempt maxRetries = (emptyGrid, maxRetries) ∧
    processPrimaryReportData fetchAttempt sheets = .error "Primary report has no data after waiting" ∧
    ∃ s, handleSecondaryAuditComplete fetchAttempt sheets = .ok s := by
  have hret : ∀ m, fetchGridReportDataWithRetry fetchAttempt m = (emptyGrid, m) := by
    intro m
    rw [fetchGridReportDataWithRetry, retryAux_all_empty fetchAttempt h m 0]
    rw [Nat.zero_add]
  refine ⟨hret maxRetries, ?_, ⟨_, rfl⟩⟩
  rw [processPrimaryReportData, hret 10]
  rfl

/-- Witness for retry_empty_exhausts_attempts at the constant-empty fetch
and empty sheet state. -/
theorem retry_empty_exhausts_attempts_witness :
    fetchGridReportDataWithRetry (fun _ => emptyGrid) 10 = (emptyGrid, 10) ∧
    processPrimaryReportData (fun _ => emptyGrid) emptySheets = .error "Primary report has no data after waiting" ∧
    ∃ s, handleSecondaryAuditComplete (fun _ => emptyGrid) emptySheets = .ok s :=
  retry_empty_exhausts_attempts (fun _ => emptyGrid) 10 emptySheets (fun _ => rfl)

lemma flatMap_code200 (pages : Nat → PageResponse) (h : ∀ p, 1 ≤ p → (pages p).code = 200) :
    ∀ (k s : Nat), 1 ≤ s →
      (List.range' s k).flatMap (fun page => if (pages page).code = 200 then (pages page).rows else []) =
        (List.range' s k).flatMap (fun page => (pages page).rows) := by
  intro k
  induction k with
  | zero => intro s _; rfl
  | succ n ih =>
    intro s hs
    rw [List.range'_succ s n 1, List.flatMap_cons, List.flatMap_cons]
    rw [if_pos (h s hs), ih (s + 1) (by omega)]

/-- C2 counterexample: with a report of 11 total pages each answering
status 200 with one row, the fetch returns only the rows of the first 10
pages, not the concatenation of the rows of every page up to the reported
total page count. -/
theorem fetchGridReportData_pagination_cap_counterexample :
    fetchGridReportData cexPages = .ok { headers := ["A"], rows := List.replicate 10 ["r"] } ∧
    (List.range (cexPages 0).totalPages).flatMap (fun page => (cexPages page).rows) =
      List.replicate 11 ["r"] ∧
    (fetchGridReportData cexPages).toOption ≠
      some { headers := (cexPages 0).headers,
             rows := (List.range (cexPages 0).totalPages).flatMap (fun page => (cexPages page).rows) } :=
  ⟨rfl, by decide, by decide⟩

/-- C2 amended: each fetch attempt returns the concatenation of the rows of
the pages it visits, namely page 0 and then pages 1 up to the reported
total page count capped at 10 pages in total, with column headers taken
from the first page's response metadata (stated here for runs where page 0
succeeds and the later pages answer status 200). -/
theorem fetchGridReportData_pages_concat (pages : Nat → PageResponse)
    (h0 : (pages 0).code < 300) (h200 : ∀ p, 1 ≤ p → (pages p).code = 200) :
    fetchGridReportData pages =
      .ok { headers := (pages 0).headers,
            rows := (List.range (max (min (pages 0).totalPages 10) 1)).flatMap
              (fun page => (pages page).rows) } := by
  simp only [fetchGridReportData]
  rw [if_neg (by omega)]
  have hm : max (min (pages 0).totalPages 10) 1 = (min (pages 0).totalPages 10 - 1) + 1 := by omega
  rw [hm, List.range_eq_range', List.range'_succ 0 (min (pages 0).totalPages 10 - 1) 1]
  rw [List.flatMap_cons]
  simp only [Nat.zero_add]
  rw [flatMap_code200 pages h200 (min (pages 0).totalPages 10 - 1) 1 (Nat.le_refl 1)]

/-- Witness for fetchGridReportData_pages_concat on a concrete two-page
oracle. -/
theorem fetchGridReportData_pages_concat_witness :
    fetchGridReportData (fun _ => ⟨200, ["H"], [["x"]], 2⟩) =
      .ok { headers := ["H"], rows := [["x"], ["x"]] } :=
  fetchGridReportData_pages_concat (fun _ => ⟨200, ["H"], [["x"]], 2⟩) (by decide) (fun _ _ => rfl)

/-- C3 counterexample: the PUT payload built for the secondary audit still
carries the remote-assigned read-only fields of the fetched audit object
(here a creation timestamp and a run-history field); nothing is stripped
before sending. -/
theorem audit_payload_keeps_readonly_fields :
    updateAndRunSecondaryAudit ["https://c.example"] 200 cexAudit 200 200 "r1" =
      .ok (⟨["https://c.example"], 1, [("created", "2024-01-01"), ("lastRunStatus", "completed")]⟩, "r1") ∧
    ("created", "2024-01-01") ∈
      (⟨["https://c.example"], 1, [("created", "2024-01-01"), ("lastRunStatus", "completed")]⟩ : Audit).rest ∧
    ("created", "2024-01-01") ∈ cexAudit.rest :=
  ⟨rfl, by decide, by decide⟩

/-- C3 amended: updateAndRunSecondaryAudit strips nothing from the fetched
audit object: the PUT payload is the fetched object with only startingUrls
and limit replaced, every other field, including the remote-assigned
read-only ones, echoed back unchanged. -/
theorem updateAndRunSecondaryAudit_no_strip (urls : List String) (fetchCode : Nat) (a : Audit)
    (updateCode runCode : Nat) (runId : String)
    (h1 : fetchCode < 300) (h2 : updateCode < 300) (h3 : runCode < 300) :
    updateAndRunSecondaryAudit urls fetchCode a updateCode runCode runId =
      .ok ({ a with startingUrls := urls, limit := urls.length }, runId) := by
  rw [updateAndRunSecondaryAudit]
  rw [if_neg (by omega), if_neg (by omega), if_neg (by omega)]

/-- Witness for updateAndRunSecondaryAudit_no_strip at the concrete audit
carrying read-only fields. -/
theorem updateAndRunSecondaryAudit_no_strip_witness :
    updateAndRunSecondaryAudit ["https://c.example"] 250 cexAudit 0 299 "r2" =
      .ok ({ cexAudit with startingUrls := ["https://c.example"], limit := 1 }, "r2") :=
  updateAndRunSecondaryAudit_no_strip ["https://c.example"] 250 cexAudit 0 299 "r2"
    (by omega) (by omega) (by omega)

/-- C4: after the update, the saved secondary audit's startingUrls equals
exactly the given URL list and its limit equals the list's length,
regardless of the audit's previous startingUrls: a full replacement, never
an append. -/
theorem updateAndRunSecondaryAudit_replaces_urls (urls : List String) (fetchCode : Nat) (a : Audit)
    (updateCode runCode : Nat) (runId : String)
    (h1 : fetchCode < 300) (h2 : updateCode < 300) (h3 : runCode < 300) :
    (updateAndRunSecondaryAudit urls fetchCode a updateCode runCode runId).toOption.map
      (fun pr => (pr.1.startingUrls, pr.1.limit)) = some (urls, urls.length) := by
  rw [updateAndRunSecondaryAudit]
  rw [if_neg (by omega), if_neg (by omega), if_neg (by omega)]
  rfl

/-- Witness for updateAndRunSecondaryAudit_replaces_urls: the audit with
previous startingUrls of two old URLs ends up with exactly the two new
URLs and limit 2. -/
theorem updateAndRunSecondaryAudit_replaces_urls_witness :
    (updateAndRunSecondaryAudit ["https://c.example", "https://d.example"] 200 cexAudit 200 200 "r3").toOption.map
      (fun pr => (pr.1.startingUrls, pr.1.limit)) =
      some (["https://c.example", "https://d.example"], 2) :=
  updateAndRunSecondaryAudit_replaces_urls ["https://c.example", "https://d.example"] 200 cexAudit
    200 200 "r3" (by omega) (by omega) (by omega)



lemma length_filterMap_eq_countP {α β : Type} (f : α → Option β) (l : List α) :
    (l.filterMap f).length = l.countP (fun a => (f a).isSome) := by
  induction l with
  | nil => rfl
  | cons a l ih =>
    cases hfa : f a <;> simp [List.filterMap_cons, hfa, List.countP_cons, ih]

/-- C5: the join is right-driven and projecting: the output carries the
fixed six-column header row, each broken-links (right) row yields at most
one output row and exactly one when its key hits the primary map, every
output row has the fixed width six, and the output row count never exceeds
the right report's row count. -/
theorem joinReports_right_driven_projection (p b : GridData) :
    (joinReports p b).headers =
      ["Source Page URL", "External Link URL", "External Link Text",
       "External Link HTML", "External Link Destination URL", "External Link Status Code"] ∧
    (joinReports p b).rows.length ≤ b.rows.length ∧
    (∀ r, r ∈ (joinReports p b).rows → r.length = 6) ∧
    (joinReports p b).rows.length =
      b.rows.countP (fun brokenRow =>
        (buildPrimaryMap p.rows (findColumnIndex p.headers "LINK_URL")
          (cellAtI brokenRow (findColumnIndex b.headers "INITIAL_PAGE_URL"))).isSome) := by
  refine ⟨rfl, ?_, ?_, ?_⟩
  · simp only [joinReports]
    exact List.length_filterMap_le _ _
  · intro r hr
    simp only [joinReports, List.mem_filterMap] at hr
    obtain ⟨brokenRow, _, heq⟩ := hr
    rw [Option.map_eq_some'] at heq
    obtain ⟨primaryRow, _, hr2⟩ := heq
    rw [← hr2]
    rfl
  · simp only [joinReports]
    rw [length_filterMap_eq_countP]
    congr 1
    funext brokenRow
    cases buildPrimaryMap p.rows (findColumnIndex p.headers "LINK_URL")
      (cellAtI brokenRow (findColumnIndex b.headers "INITIAL_PAGE_URL")) <;> rfl

/-- Witness for joinReports_right_driven_projection: the one matched row of
the concrete join has width six. -/
theorem joinReports_right_driven_projection_witness :
    (["pa", "u1", "", "", "d1", "404"] : List String).length = 6 :=
  (joinReports_right_driven_projection cex5p cex5b).2.2.1 ["pa", "u1", "", "", "d1", "404"] (by decide)

/-- C6: each create-or-get provisioning routine short-circuits when its id
is already configured, returning that id unchanged with created=false and
issuing zero remote creation calls; only with the id absent does it issue
one creation call and return the new id with created=true. -/
theorem createOrGet_idempotent (configuredId newId : String) (createCode : Nat) :
    (configuredId ≠ "" →
      createOrGetPrimaryReport configuredId createCode newId = .ok (⟨configuredId, false⟩, 0) ∧
      createOrGetSecondaryReport configuredId createCode newId = .ok (⟨configuredId, false⟩, 0) ∧
      createOrGetSecondaryAudit configuredId createCode newId = .ok (⟨configuredId, false⟩, 0)) ∧
    (configuredId = "" → createCode < 300 →
      createOrGetPrimaryReport configuredId createCode newId = .ok (⟨newId, true⟩, 1) ∧
      createOrGetSecondaryReport configuredId createCode newId = .ok (⟨newId, true⟩, 1) ∧
      createOrGetSecondaryAudit configuredId createCode newId = .ok (⟨newId, true⟩, 1)) := by
  constructor
  · intro h
    refine ⟨?_, ?_, ?_⟩ <;>
      simp [createOrGetPrimaryReport, createOrGetSecondaryReport, createOrGetSecondaryAudit, h]
  · intro h hc
    subst h
    refine ⟨?_, ?_, ?_⟩ <;>
      simp [createOrGetPrimaryReport, createOrGetSecondaryReport, createOrGetSecondaryAudit,
        Nat.not_le.mpr hc]

/-- Witness for createOrGet_idempotent: with ids already configured, each
routine echoes its id with created=false and zero creation calls, even when
the remote creation endpoint would fail. -/
theorem createOrGet_idempotent_witness :
    createOrGetPrimaryReport "16008" 500 "NEW" = .ok (⟨"16008", false⟩, 0) ∧
    createOrGetSecondaryReport "16009" 500 "NEW" = .ok (⟨"16009", false⟩, 0) ∧
    createOrGetSecondaryAudit "2018768" 500 "NEW" = .ok (⟨"2018768", false⟩, 0) :=
  ⟨((createOrGet_idempotent "16008" "NEW" 500).1 (by decide)).1,
   ((createOrGet_idempotent "16009" "NEW" 500).1 (by decide)).2.1,
   ((createOrGet_idempotent "2018768" "NEW" 500).1 (by decide)).2.2⟩

lemma dedupFirst_cons (x : String) (xs : List String) :
    dedupFirst (x :: xs) = x :: dedupFirst (xs.filter (fun y => decide (y ≠ x))) := by
  rw [dedupFirst]

lemma mem_dedupFirst (v : String) : ∀ (l : List String), v ∈ dedupFirst l ↔ v ∈ l := by
  intro l
  induction l using dedupFirst.induct with
  | case1 => simp [dedupFirst]
  | case2 x xs ih =>
    rw [dedupFirst_cons]
    simp only [List.mem_cons, ih, List.mem_filter, decide_eq_true_eq]
    by_cases hv : v = x <;> simp [hv]

lemma nodup_dedupFirst : ∀ (l : List String), (dedupFirst l).Nodup := by
  intro l
  induction l using dedupFirst.induct with
  | case1 => simp [dedupFirst]
  | case2 x xs ih =>
    rw [dedupFirst_cons]
    refine List.nodup_cons.mpr ⟨?_, ih⟩
    intro hx
    rw [mem_dedupFirst] at hx
    simp [List.mem_filter] at hx

lemma filter_and_notMem_cons (l : List String) (u : String) (seen : List String) :
    (l.filter (fun v => decide (v ≠ "" ∧ v ∉ seen))).filter (fun v => decide (v ≠ u)) =
      l.filter (fun v => decide (v ≠ "" ∧ v ∉ u :: seen)) := by
  rw [List.filter_filter]
  apply List.filter_congr
  intro a _
  by_cases h1 : a = "" <;> by_cases h2 : a ∈ seen <;> by_cases h3 : a = u <;>
    simp [h1, h2, h3, List.mem_cons]

lemma extractUniqueUrlsAux_eq (rows : List (List String)) (columnIndex : Int) :
    ∀ seen, extractUniqueUrlsAux rows columnIndex seen =
      dedupFirst ((rows.map (fun r => cellAtI r columnIndex)).filter
        (fun v => decide (v ≠ "" ∧ v ∉ seen))) := by
  induction rows with
  | nil => intro seen; simp [extractUniqueUrlsAux, dedupFirst]
  | cons row rest ih =>
    intro seen
    rw [List.map_cons, List.filter_cons]
    by_cases h1 : cellAtI row columnIndex = ""
    · rw [extractUniqueUrlsAux]
      rw [if_neg (by simp [h1])]
      rw [if_neg (by simp [h1])]
      exact ih seen
    · by_cases h2 : cellAtI row columnIndex ∈ seen
      · rw [extractUniqueUrlsAux]
        rw [if_neg (by simp [h1, h2])]
        rw [if_neg (by simp [h2])]
        exact ih seen
      · rw [extractUniqueUrlsAux]
        rw [if_pos ⟨h1, h2⟩]
        rw [if_pos (by simp [h1, h2])]
        rw [dedupFirst_cons, filter_and_notMem_cons]
        rw [ih (cellAtI row columnIndex :: seen)]

/-- C7 counterexample: an empty (falsy) cell value appears in the column
but never in the output of extractUniqueUrls, so the output is not the list
of all distinct column values. -/
theorem extractUniqueUrls_drops_falsy_counterexample :
    extractUniqueUrls [["a"], [""], ["b"]] 0 = ["a", "b"] ∧
    "" ∈ ([["a"], [""], ["b"]].map (fun r => cellAtI r 0)) ∧
    "" ∉ extractUniqueUrls [["a"], [""], ["b"]] 0 := by
  decide

/-- C7 amended: extractUniqueUrls returns the first-occurrence-ordered
deduplication of the truthy (non-empty) values of the column: a value is in
the output iff it is non-empty and appears in the column, each exactly
once, in the order of first occurrence. -/
theorem extractUniqueUrls_unique_first_occurrence (rows : List (List String)) (columnIndex : Int) :
    extractUniqueUrls rows columnIndex =
      dedupFirst ((rows.map (fun r => cellAtI r columnIndex)).filter (fun v => decide (v ≠ ""))) ∧
    (∀ v, v ∈ extractUniqueUrls rows columnIndex ↔
      (v ≠ "" ∧ v ∈ rows.map (fun r => cellAtI r columnIndex))) ∧
    (extractUniqueUrls rows columnIndex).Nodup := by
  have h0 := extractUniqueUrlsAux_eq rows columnIndex []
  have hfe : ((rows.map (fun r => cellAtI r columnIndex)).filter
        (fun v => decide (v ≠ "" ∧ v ∉ ([] : List String)))) =
      ((rows.map (fun r => cellAtI r columnIndex)).filter (fun v => decide (v ≠ ""))) := by
    apply List.filter_congr
    intro a _
    simp
  refine ⟨?_, ?_, ?_⟩
  · rw [extractUniqueUrls, h0, hfe]
  · intro v
    rw [extractUniqueUrls, h0, hfe, mem_dedupFirst]
    simp only [List.mem_filter, decide_eq_true_eq]
    exact and_comm
  · rw [extractUniqueUrls, h0]
    exact nodup_dedupFirst _

/-- C8 counterexample: for a request with a missing stage parameter the
response body is the bare descriptive text, not the OK body and not a body
of the error-prefixed shape (its first seven characters differ from the
error prefix). -/
theorem doPostHandler_missing_stage_counterexample :
    doPostHandler "" (.ok ()) (.ok ()) = "Missing stage parameter" ∧
    "Missing stage parameter" ≠ "OK" ∧
    "Missing stage parameter".data.take 7 ≠ "Error: ".data := by
  decide

/-- C8 amended: the response body is exactly OK on success and exactly the
error-prefixed message on every failure raised inside the dispatch,
including the unknown-stage case, while a missing stage parameter answers
with the bare descriptive text without the error prefix; the handler is a
total function of the stage and the handler outcomes, so no exception
reaches the transport. -/
theorem doPostHandler_responses (stageParam : String) (p s : Except String Unit) :
    (doPostHandler stageParam p s = "OK" ∨
      (∃ m, doPostHandler stageParam p s = "Error: " ++ m) ∨
      doPostHandler stageParam p s = "Missing stage parameter") ∧
    (toLowerJS stageParam = "" → doPostHandler stageParam p s = "Missing stage parameter") ∧
    (toLowerJS stageParam = "primary" → p = .ok () → doPostHandler stageParam p s = "OK") ∧
    (toLowerJS stageParam = "primary" → ∀ m, p = .error m →
      doPostHandler stageParam p s = "Error: " ++ m) ∧
    (toLowerJS stageParam = "secondary" → s = .ok () → doPostHandler stageParam p s = "OK") ∧
    (toLowerJS stageParam = "secondary" → ∀ m, s = .error m →
      doPostHandler stageParam p s = "Error: " ++ m) ∧
    (toLowerJS stageParam ≠ "" → toLowerJS stageParam ≠ "primary" →
      toLowerJS stageParam ≠ "secondary" →
      doPostHandler stageParam p s = "Error: " ++ ("Unknown stage: " ++ toLowerJS stageParam)) := by
  refine ⟨?_, ?_, ?_, ?_, ?_, ?_, ?_⟩
  · by_cases h1 : toLowerJS stageParam = ""
    · exact Or.inr (Or.inr (by simp [doPostHandler, h1]))
    · by_cases h2 : toLowerJS stageParam = "primary"
      · cases p with
        | ok u => exact Or.inl (by simp [doPostHandler, h1, h2])
        | error m => exact Or.inr (Or.inl ⟨m, by simp [doPostHandler, h1, h2]⟩)
      · by_cases h3 : toLowerJS stageParam = "secondary"
        · cases s with
          | ok u => exact Or.inl (by simp [doPostHandler, h1, h2, h3])
          | error m => exact Or.inr (Or.inl ⟨m, by simp [doPostHandler, h1, h2, h3]⟩)
        · exact Or.inr (Or.inl ⟨"Unknown stage: " ++ toLowerJS stageParam,
            by simp [doPostHandler, h1, h2, h3]⟩)
  · intro h1
    simp [doPostHandler, h1]
  · intro h1 hp
    simp [doPostHandler, h1, hp]
  · intro h1 m hp
    simp [doPostHandler, h1, hp]
  · intro h1 hs
    by_cases h0 : toLowerJS stageParam = ""
    · rw [h1] at h0; exact absurd h0 (by decide)
    · simp [doPostHandler, h1, hs]
  · intro h1 m hs
    simp [doPostHandler, h1, hs]
  · intro h1 h2 h3
    simp [doPostHandler, h1, h2, h3]

/-- Witness for doPostHandler_responses: uppercase stage name with a
successful primary handler answers OK. -/
theorem doPostHandler_responses_witness :
    doPostHandler "PRIMARY" (.ok ()) (.ok ()) = "OK" :=
  (doPostHandler_responses "PRIMARY" (.ok ()) (.ok ())).2.2.1 (by decide) rfl

/-- C9: the broken-links saved report carries the negated status-code
filter with arguments 403 and 429, and when a status-code column resolves,
filterBrokenLinks keeps a row iff its parsed status code is at least 400
and is neither 403 nor 429. -/
theorem brokenLinks_status_policy :
    (∀ secondaryAuditId : Int, ∃ c ∈ secondaryReportConditions secondaryAuditId,
      c.negated = true ∧ c.filteredColumnId = "FINAL_PAGE_STATUS_CODE" ∧ c.args = [403, 429]) ∧
    (∀ (g : GridData) (row : List String), statusCodeIndexOf g.headers ≠ -1 →
      (row ∈ filterBrokenLinks g ↔ row ∈ g.rows ∧
        ∃ n, parseIntJS (cellAtI row (statusCodeIndexOf g.headers)) = some n ∧
          400 ≤ n ∧ n ≠ 403 ∧ n ≠ 429)) := by
  constructor
  · intro secondaryAuditId
    refine ⟨⟨true, "integer_in", "FINAL_PAGE_STATUS_CODE", [403, 429]⟩, ?_, rfl, rfl, rfl⟩
    simp [secondaryReportConditions]
  · intro g row hidx
    simp only [filterBrokenLinks]
    rw [if_neg hidx]
    rw [List.mem_filter]
    refine and_congr_right (fun _ => ?_)
    cases hp : parseIntJS (cellAtI row (statusCodeIndexOf g.headers)) with
    | none => simp [hp]
    | some n => simp [hp, and_assoc]

/-- Witness for brokenLinks_status_policy: with a STATUS_CODE column, a 404
row is kept by the filter. -/
theorem brokenLinks_status_policy_witness :
    ["404"] ∈ filterBrokenLinks ⟨["STATUS_CODE"], [["404"], ["403"], ["200"]]⟩ :=
  (brokenLinks_status_policy.2 ⟨["STATUS_CODE"], [["404"], ["403"], ["200"]]⟩ ["404"]
      (by decide)).mpr
    ⟨by decide, 404, by decide, by decide, by decide, by decide⟩

lemma insertRows_lookup (idx : Int) :
    ∀ (rows : List (List String)) (m : String → Option (List String)) (k : String),
      insertRows idx rows m k =
        match lastWithKey idx k rows with
        | some r => some r
        | none => m k := by
  intro rows
  induction rows with
  | nil => intro m k; rfl
  | cons row rest ih =>
    intro m k
    rw [insertRows]
    rw [ih]
    cases hrest : lastWithKey idx k rest with
    | some r => simp only [lastWithKey, hrest]
    | none =>
      simp only [lastWithKey, hrest]
      by_cases hcell : cellAtI row idx = ""
      · rw [if_pos hcell]
        rw [if_neg (by rintro ⟨he, hk⟩; exact hk (he ▸ hcell))]
      · rw [if_neg hcell]
        by_cases hk : k = cellAtI row idx
        · rw [if_pos hk, if_pos ⟨hk.symm, by rw [hk]; exact hcell⟩]
        · rw [if_neg hk, if_neg (by rintro ⟨he, _⟩; exact hk he.symm)]

lemma buildPrimaryMap_eq_lastWithKey (rows : List (List String)) (idx : Int) (k : String) :
    buildPrimaryMap rows idx k = lastWithKey idx k rows := by
  rw [buildPrimaryMap, insertRows_lookup]
  cases lastWithKey idx k rows <;> rfl

/-- C10: the primary lookup map is built by overwriting on duplicate keys,
so every broken-links row is matched against the last primary row carrying
its key in row order; earlier duplicate primary rows never contribute to
the output. -/
theorem joinReports_last_wins (p b : GridData) :
    (joinReports p b).rows = b.rows.filterMap (fun brokenRow =>
      (lastWithKey (findColumnIndex p.headers "LINK_URL")
          (cellAtI brokenRow (findColumnIndex b.headers "INITIAL_PAGE_URL")) p.rows).map
        (fun primaryRow =>
          projectJoined (findColumnIndex p.headers "FINAL_PAGE_URL")
            (findColumnIndex p.headers "LINK_URL") (findColumnIndex p.headers "LINK_TEXT")
            (findColumnIndex p.headers "LINK_OUTER_HTML")
            (findColumnIndex b.headers "FINAL_PAGE_URL")
            (findColumnIndex b.headers "FINAL_PAGE_STATUS_CODE") primaryRow brokenRow)) := by
  simp only [joinReports]
  congr 1
  funext brokenRow
  rw [buildPrimaryMap_eq_lastWithKey]
